import Mathlib

set_option autoImplicit false

/-! Verification of the ORM core in src/www/orm.py: field descriptors, the
model metaclass that compiles a table declaration into the four SQL
statement templates, record attribute storage with lazy default
resolution, and the connection-pooled SQL executor. The embedding is
shallow: Python values are an inductive type, Python None is Option.none,
Python exceptions are Except, and the database engine is an explicit
function parameter giving the result set of a query. -/

/-- Python values the repository stores in rows, records and field
defaults. -/
inductive PyObj where
  | str : String → PyObj
  | int : Int → PyObj
  | bool : Bool → PyObj
deriving DecidableEq

/-- A database row as produced by the aiomysql DictCursor: column name to
value, a NULL cell being Option.none. -/
abbrev Row := List (String × Option PyObj)

/-- A Model instance is a dict backing attribute access (orm.py line 133,
class Model(dict, metaclass=ModelMetaclass)). A value stored as Python
None is Option.none. -/
abbrev Record := List (String × Option PyObj)

/-- A field default as orm.py line 154 distinguishes it:
callable(field.default) picks the factory branch, any other value is used
literally. -/
inductive PyDefault where
  | lit : PyObj → PyDefault
  | factory : (Unit → PyObj) → PyDefault

/-- OrmField descriptor, orm.py lines 54 to 59: the constructor stores the
four attributes verbatim. -/
structure OrmField where
  name : Option String
  column_type : String
  primary_key : Bool
  default : Option PyDefault

/-- StringField, orm.py lines 65 to 67 (Python keyword defaults name=None,
primary_key=False, default=None, ddl=varchar(100) are passed explicitly at
each use site of the model below). -/
def StringField (name : Option String) (primary_key : Bool) (default : Option PyDefault) : OrmField :=
  ⟨name, "varchar(100)", primary_key, default⟩

/-- BooleanField, orm.py lines 70 to 72: never a primary key. -/
def BooleanField (name : Option String) (default : Option PyDefault) : OrmField :=
  ⟨name, "boolean", false, default⟩

/-- IntegerField, orm.py lines 75 to 77. -/
def IntegerField (name : Option String) (primary_key : Bool) (default : Option PyDefault) : OrmField :=
  ⟨name, "bigint", primary_key, default⟩

/-- FloatField, orm.py lines 80 to 82. -/
def FloatField (name : Option String) (primary_key : Bool) (default : Option PyDefault) : OrmField :=
  ⟨name, "real", primary_key, default⟩

/-- TextField, orm.py lines 85 to 87: never a primary key. -/
def TextField (name : Option String) (default : Option PyDefault) : OrmField :=
  ⟨name, "text", false, default⟩

/-- Python truthiness of the primaryKey loop variable in
ModelMetaclass.__new__ (orm.py line 109, if primaryKey): None and the
empty string are falsy, any other string is truthy. -/
def truthyS : Option String → Bool
  | some s => !(s == "")
  | none => false

/-- The field-scanning loop of ModelMetaclass.__new__, orm.py lines 103
to 113: walks the OrmField-valued class attributes in declaration order,
collecting non-key attribute names into fields and recording the primary
key, raising RuntimeError on a second truthy primary key. -/
def compileLoop : List (String × OrmField) → Option String → List String → Except String (Option String × List String)
  | [], pk, fs => Except.ok (pk, fs)
  | (k, v) :: rest, pk, fs =>
    if v.primary_key then
      if truthyS pk then Except.error ("Duplicate primary key for field: " ++ k)
      else compileLoop rest (some k) fs
    else compileLoop rest pk (fs ++ [k])

/-- Tail of a Python str.join: a comma-space before every element after
the first. -/
def commaTail : List String → String
  | [] => ""
  | y :: ys => ", " ++ y ++ commaTail ys

/-- Python ", ".join over a list of strings (orm.py lines 124 to 128). -/
def joinComma : List String → String
  | [] => ""
  | x :: xs => x ++ commaTail xs

/-- Backtick escaping of an identifier, orm.py line 118. -/
def escapeId (f : String) : String := "`" ++ f ++ "`"

/-- The SET-clause column name of the UPDATE template, orm.py line 128:
mappings.get(f).name or f, so the name attribute when it is truthy (not
None and not empty), else the declaration key f. The final fallback
branch is unreachable for compiled models because every member of fields
is a key of mappings by construction of the scanning loop. -/
def aliasOf (m : List (String × OrmField)) (f : String) : String :=
  match m.lookup f with
  | some fld =>
    match fld.name with
    | some s => if s == "" then f else s
    | none => f
  | none => f

/-- The compiled schema a table class carries after
ModelMetaclass.__new__: the class attributes set at orm.py lines 119 to
129. -/
structure TableSchema where
  tableName : String
  primaryKey : String
  fields : List String
  mappings : List (String × OrmField)
  selectT : String
  insertT : String
  updateT : String
  deleteT : String

/-- A table class declaration as the metaclass sees it: the class name,
the optional dunder table attribute, and the OrmField-valued attributes in
declaration order (the isinstance(v, OrmField) filter of orm.py line 104 is
pre-applied). -/
structure ModelDecl where
  name : String
  table : Option String
  fieldAttrs : List (String × OrmField)

/-- Table-name resolution, orm.py line 97: attrs.get with default None,
then Python or with the class name, so a missing or falsy dunder table
attribute falls back to the class name. -/
def tableNameOf (decl : ModelDecl) : String :=
  match decl.table with
  | some t => if t == "" then decl.name else t
  | none => decl.name

/-- Template construction, orm.py lines 118 to 129, string for string:
escaped_fields = map of backtick escape over fields, then the four
templates built with percent formatting and ", ".join. -/
def mkSchema (tableName pk : String) (fields : List String) (mappings : List (String × OrmField)) : TableSchema :=
  ⟨tableName, pk, fields, mappings,
   "select " ++ escapeId pk ++ ", " ++ joinComma (fields.map escapeId) ++ " from " ++ escapeId tableName,
   "insert into " ++ escapeId tableName ++ " (" ++ joinComma (fields.map escapeId) ++ ", " ++ escapeId pk
     ++ ") values (" ++ joinComma (List.replicate ((fields.map escapeId).length + 1) "?") ++ ")",
   "update " ++ escapeId tableName ++ " set "
     ++ joinComma (fields.map (fun f => escapeId (aliasOf mappings f) ++ "=?"))
     ++ " where " ++ escapeId pk ++ "=?",
   "delete from " ++ escapeId tableName ++ " where " ++ escapeId pk ++ "=?"⟩

/-- ModelMetaclass.__new__, orm.py lines 92 to 130, for a class other
than Model itself: scan the field attributes, then raise RuntimeError
when the recorded primary key is falsy (line 114, if not primaryKey),
else build the schema. -/
def compileModel (decl : ModelDecl) : Except String TableSchema :=
  match compileLoop decl.fieldAttrs Option.none [] with
  | Except.error e => Except.error e
  | Except.ok (pkOpt, fields) =>
    match pkOpt with
    | some pk =>
      if pk == "" then Except.error "Primary key not found."
      else Except.ok (mkSchema (tableNameOf decl) pk fields decl.fieldAttrs)
    | none => Except.error "Primary key not found."

/-- Model.__setattr__, orm.py lines 143 to 144: dict item assignment,
replacing the binding of key when present, else appending it. -/
def setAttr : Record → String → Option PyObj → Record
  | [], k, v => [(k, v)]
  | (k0, v0) :: rest, k, v =>
    if k0 == k then (k0, v) :: rest else (k0, v0) :: setAttr rest k v

/-- Model.__getattr__, orm.py lines 137 to 141: dict item access,
raising AttributeError (modelled as Except.error with the message of line
141, quotes dropped) when the key is absent from the dict. -/
def Model.getattrFn (r : Record) (k : String) : Except String (Option PyObj) :=
  match r.lookup k with
  | some v => Except.ok v
  | none => Except.error ("AttributeError: Model object has no attribute " ++ k)

/-- Python getattr(self, key, None): the stored value when the key is
present, else None. -/
def getAttrD (r : Record) (k : String) : Option PyObj :=
  match r.lookup k with
  | some v => v
  | none => none

/-- Model.getValue, orm.py lines 146 to 147. -/
def Model.getValue (r : Record) (k : String) : Option PyObj :=
  getAttrD r k

/-- Model.getValueOrDefault, orm.py lines 149 to 157: the set attribute
when it is not None, else look the field up in mappings (a missing key is
a KeyError), resolve its default (factory call when callable), and cache
the resolved value with setattr when the default is not None. Returns the
value together with the possibly updated record. -/
def Model.getValueOrDefault (r : Record) (m : List (String × OrmField)) (k : String) : Except String (Option PyObj × Record) :=
  match getAttrD r k with
  | some v => Except.ok (some v, r)
  | none =>
    match m.lookup k with
    | none => Except.error ("KeyError: " ++ k)
    | some field =>
      match field.default with
      | none => Except.ok (none, r)
      | some (PyDefault.lit v) => Except.ok (some v, setAttr r k (some v))
      | some (PyDefault.factory f) => Except.ok (some (f ()), setAttr r k (some (f ())))

/-- The argument lists of save and update, orm.py lines 186 to 187 and
197 to 198: map getValueOrDefault over the non-key fields then the
primary key, left to right, threading the record because each call may
cache a default onto the instance. -/
def resolveList : Record → List (String × OrmField) → List String → Except String (List (Option PyObj) × Record)
  | r, _, [] => Except.ok ([], r)
  | r, m, k :: ks =>
    match Model.getValueOrDefault r m k with
    | Except.error e => Except.error e
    | Except.ok (v, r1) =>
      match resolveList r1 m ks with
      | Except.error e => Except.error e
      | Except.ok (vs, r2) => Except.ok (v :: vs, r2)

/-- The database engine seen by a SELECT: the full result set it returns
for a given SQL text and argument list. -/
abbrev SelEngine := String → List (Option PyObj) → List Row

/-- The database engine seen by a mutating statement: the affected-row
count, or an engine error. -/
abbrev MutEngine := String → List (Option PyObj) → Except String Int

/-- The select branch of executeSql, orm.py lines 34 to 44: run the
query, then fetchmany(limit) when limit is truthy (zero and None are
falsy, so fetchall), else fetchall. -/
def executeSqlSelect (engine : SelEngine) (sql : String) (args : List (Option PyObj)) (limit : Option Nat) : List Row :=
  match limit with
  | some n => if n == 0 then engine sql args else (engine sql args).take n
  | none => engine sql args

/-- Result values find can hand back to its caller: Python None, a single
row, or a list of rows. -/
inductive PyRet where
  | pynone : PyRet
  | row : Row → PyRet
  | rowList : List Row → PyRet
deriving DecidableEq

/-- Model.find, orm.py lines 159 to 165: run the compiled SELECT with the
where clause appended by percent formatting (select, space, where, the
primary key name, an equals sign, a space and a question mark), binding
pk as the single argument, limit 1; return None when the fetched list is
empty, else return the fetched list itself (not its first element). -/
def Model.find (ts : TableSchema) (engine : SelEngine) (pk : Option PyObj) : PyRet :=
  if (executeSqlSelect engine (ts.selectT ++ " where " ++ ts.primaryKey ++ "= ?") [pk] (some 1)).length == 0
  then PyRet.pynone
  else PyRet.rowList (executeSqlSelect engine (ts.selectT ++ " where " ++ ts.primaryKey ++ "= ?") [pk] (some 1))

/-- The behaviour stated by the specification for find, written from the
words of the specification for comparison with Model.find: absent when
zero rows match, else the first row itself. -/
def findSpecified (ts : TableSchema) (engine : SelEngine) (pk : Option PyObj) : PyRet :=
  match executeSqlSelect engine (ts.selectT ++ " where " ++ ts.primaryKey ++ "= ?") [pk] (some 1) with
  | [] => PyRet.pynone
  | r :: _ => PyRet.row r

/-- Model.findAll, orm.py lines 167 to 176: append the raw where text
after the compiled SELECT when it is truthy, run with the given limit and
empty argument list, and return None when zero rows came back, else the
row list. -/
def Model.findAll (ts : TableSchema) (engine : SelEngine) (whereC : Option String) (limit : Option Nat) : Option (List Row) :=
  match
    (match whereC with
     | some w => if w == "" then executeSqlSelect engine ts.selectT [] limit
                 else executeSqlSelect engine (ts.selectT ++ " where " ++ w) [] limit
     | none => executeSqlSelect engine ts.selectT [] limit)
  with
  | [] => none
  | r :: rs => some (r :: rs)

/-- Model.findCount, orm.py lines 178 to 182: len applied to the value
findAll returned; when findAll returned None this is a TypeError, which
the embedding surfaces as Except.error. -/
def Model.findCount (ts : TableSchema) (engine : SelEngine) (whereC : Option String) (limit : Option Nat) : Except String Nat :=
  match Model.findAll ts engine whereC limit with
  | none => Except.error "TypeError: object of type NoneType has no len()"
  | some result => Except.ok result.length

/-- Log lines the mutating operations can emit. -/
inductive LogEntry where
  | warning : String → LogEntry
  | error : String → LogEntry
deriving DecidableEq

/-- Model.save, orm.py lines 184 to 193: resolve the argument list
outside the try block, then run the INSERT inside try; a non-1 affected
count logs a warning, an engine exception is caught and logged by the
except branch and save still returns normally. The returned pair is the
record after default caching together with the emitted log lines. -/
def Model.save (r : Record) (ts : TableSchema) (engine : MutEngine) : Except String (Record × List LogEntry) :=
  match resolveList r ts.mappings (ts.fields ++ [ts.primaryKey]) with
  | Except.error e => Except.error e
  | Except.ok (args, r1) =>
    match engine ts.insertT args with
    | Except.ok result =>
      Except.ok (r1, if result != 1
        then [LogEntry.warning ("failed to insert record. affected rows: " ++ toString result)]
        else [])
    | Except.error e => Except.ok (r1, [LogEntry.error e])

/-- Model.update, orm.py lines 195 to 201: same argument resolution as
save, but no try block, so an engine error propagates; a non-1 affected
count only logs a warning. -/
def Model.update (r : Record) (ts : TableSchema) (engine : MutEngine) : Except String (Record × List LogEntry) :=
  match resolveList r ts.mappings (ts.fields ++ [ts.primaryKey]) with
  | Except.error e => Except.error e
  | Except.ok (args, r1) =>
    match engine ts.updateT args with
    | Except.error e => Except.error e
    | Except.ok result =>
      Except.ok (r1, if result != 1
        then [LogEntry.warning ("failed to update record. affected rows: " ++ toString result)]
        else [])

/-- Model.remove, orm.py lines 203 to 208: run the compiled DELETE with
the primary-key value as single argument; a non-1 affected count only
logs a warning, an engine error propagates. -/
def Model.remove (ts : TableSchema) (engine : MutEngine) (primary : Option PyObj) : Except String (List LogEntry) :=
  match engine ts.deleteT [primary] with
  | Except.error e => Except.error e
  | Except.ok result =>
    Except.ok (if result != 1
      then [LogEntry.warning ("failed to remove record. affected rows: " ++ toString result)]
      else [])

/-- Connection and cursor events of executeSql, orm.py lines 29 to 51. -/
inductive Event where
  | acquire : Event
  | openCursor : Event
  | exec : Event
  | fetch : Event
  | closeCursor : Event
  | release : Event
deriving DecidableEq

/-- The body of the async-with block in the select branch of executeSql
(orm.py lines 33 to 44), with the possible failure of cursor.execute and
of the row fetch made explicit: the event prefix actually performed and
the outcome. -/
def selectBody (execFail fetchFail : Option String) : List Event × Except String Unit :=
  match execFail with
  | some e => ([Event.openCursor, Event.exec], Except.error e)
  | none =>
    match fetchFail with
    | some e => ([Event.openCursor, Event.exec, Event.fetch], Except.error e)
    | none => ([Event.openCursor, Event.exec, Event.fetch, Event.closeCursor], Except.ok ())

/-- The body of the async-with block in the mutate branch of executeSql
(orm.py lines 45 to 51). -/
def mutateBody (execFail : Option String) : List Event × Except String Unit :=
  match execFail with
  | some e => ([Event.openCursor, Event.exec], Except.error e)
  | none => ([Event.openCursor, Event.exec, Event.closeCursor], Except.ok ())

/-- The async-with pool.acquire() construct of orm.py line 32: the
connection is acquired before the body and, by the semantics of
async-with, released when the body exits normally and also when it raises. -/
def asyncWithPool (body : List Event × Except String Unit) : List Event × Except String Unit :=
  (Event.acquire :: body.1 ++ [Event.release], body.2)

/-- The full event trace of executeSql, orm.py lines 29 to 51, in either
mode and for every combination of statement and fetch outcome. -/
def executeSqlEvents (select : Bool) (execFail fetchFail : Option String) : List Event × Except String Unit :=
  asyncWithPool (if select then selectBody execFail fetchFail else mutateBody execFail)

/-- Count of question-mark characters of a string, for counting the
positional placeholders of a template. -/
def countQ (s : String) : Nat := s.data.count '?'

/-- Number of truthy primary-key markings among the field attributes. -/
def pkCount (l : List (String × OrmField)) : Nat :=
  (l.filter fun kv => kv.2.primary_key).length

/-- Every name save and update resolve is a key of mappings; this is the
invariant the scanning loop establishes for every compiled table class. -/
def mappingsComplete (ts : TableSchema) : Bool :=
  (ts.fields ++ [ts.primaryKey]).all fun k => (ts.mappings.lookup k).isSome

/-- The update template as the words of the specification describe it,
for comparison with the compiled one: the SET column name is the name
attribute of the field whenever that attribute is present, else the
declaration key. -/
def updateTemplateSpecified (ts : TableSchema) : String :=
  "update " ++ escapeId ts.tableName ++ " set "
    ++ joinComma (ts.fields.map (fun f =>
         escapeId (match ts.mappings.lookup f with
                   | some fld => match fld.name with
                                 | some s => s
                                 | none => f
                   | none => f) ++ "=?"))
    ++ " where " ++ escapeId ts.primaryKey ++ "=?"

/-- The Student table class of orm.py lines 211 to 217: an integer
primary key SId (Python default 0 from the IntegerField constructor) and
three string fields with default None. -/
def studentDecl : ModelDecl :=
  ⟨"Student", some "Student",
   [("SId", IntegerField none true (some (PyDefault.lit (PyObj.int 0)))),
    ("Sname", StringField none false none),
    ("Sage", StringField none false none),
    ("Ssex", StringField none false none)]⟩

/-- The schema compilation of the Student class succeeds; this definition
extracts it (the fallback branch is never reached). -/
def studentSchema : TableSchema :=
  match compileModel studentDecl with
  | Except.ok ts => ts
  | Except.error _ => ⟨"", "", [], [], "", "", "", ""⟩


/-- An engine whose result set holds exactly one row. -/
def engineOneRow : SelEngine := fun _ _ => [[("SId", some (PyObj.str "08"))]]

/-- An engine whose every result set is empty. -/
def engineEmpty : SelEngine := fun _ _ => []

/-- An engine that raises on every statement. -/
def engineBoom : MutEngine := fun _ _ => Except.error "boom"

/-- An engine that reports zero affected rows for every statement. -/
def engineZero : MutEngine := fun _ _ => Except.ok 0

/-- A Student record with all four attributes set. -/
def rec08 : Record :=
  [("SId", some (PyObj.str "08")), ("Sname", some (PyObj.str "X")),
   ("Sage", some (PyObj.str "1990")), ("Ssex", some (PyObj.str "F"))]

theorem setAttr_lookup (r : Record) (k : String) (v : Option PyObj) :
    (setAttr r k v).lookup k = some v := by
  induction r with
  | nil => simp [setAttr, List.lookup]
  | cons hd tl ih =>
    obtain ⟨k0, v0⟩ := hd
    by_cases h : k0 = k
    · subst h
      simp [setAttr, List.lookup]
    · have hb : (k0 == k) = false := by simp [h]
      have hb2 : (k == k0) = false := by simp [Ne.symm h]
      simp [setAttr, hb, List.lookup, hb2, ih]

/-- Claim C10: on a Model instance, setting attribute k to v stores v
under key k in the backing dict (so attribute access and mapping access
agree), reading an attribute whose key is absent from the dict raises
AttributeError, and getValue returns None rather than failing on an unset
key. -/
theorem model_attr_dict_consistency (r : Record) (k : String) (v : Option PyObj) :
    (setAttr r k v).lookup k = some v ∧
    Model.getattrFn (setAttr r k v) k = Except.ok v ∧
    (r.lookup k = none →
      Model.getattrFn r k = Except.error ("AttributeError: Model object has no attribute " ++ k)) ∧
    (r.lookup k = none → Model.getValue r k = none) := by
  refine ⟨setAttr_lookup r k v, ?_, ?_, ?_⟩
  · simp [Model.getattrFn, setAttr_lookup r k v]
  · intro h; simp [Model.getattrFn, h]
  · intro h; simp [Model.getValue, getAttrD, h]

theorem model_attr_dict_consistency_witness :
    (setAttr [] "x" (some (PyObj.str "1"))).lookup "x" = some (some (PyObj.str "1")) ∧
    Model.getattrFn [] "x" = Except.error ("AttributeError: Model object has no attribute " ++ "x") :=
  ⟨(model_attr_dict_consistency [] "x" (some (PyObj.str "1"))).1,
   (model_attr_dict_consistency [] "x" (some (PyObj.str "1"))).2.2.1 rfl⟩

/-- Claim C6: the effective value of a declared field at persistence time
is the set attribute when present and not None; else the default, called
as a zero-argument factory when callable and used literally otherwise,
and the resolved default is cached back onto the instance with setattr
(no caching happens when the default itself is None). -/
theorem getValueOrDefault_policy (r : Record) (m : List (String × OrmField)) (k : String)
    (fld : OrmField) (hf : m.lookup k = some fld) :
    (∀ v, getAttrD r k = some v → Model.getValueOrDefault r m k = Except.ok (some v, r)) ∧
    (getAttrD r k = none → fld.default = none →
      Model.getValueOrDefault r m k = Except.ok (none, r)) ∧
    (∀ v, getAttrD r k = none → fld.default = some (PyDefault.lit v) →
      Model.getValueOrDefault r m k = Except.ok (some v, setAttr r k (some v))) ∧
    (∀ f, getAttrD r k = none → fld.default = some (PyDefault.factory f) →
      Model.getValueOrDefault r m k = Except.ok (some (f ()), setAttr r k (some (f ())))) := by
  refine ⟨?_, ?_, ?_, ?_⟩
  · intro v hv; simp [Model.getValueOrDefault, hv]
  · intro hv hd; simp [Model.getValueOrDefault, hv, hf, hd]
  · intro v hv hd; simp [Model.getValueOrDefault, hv, hf, hd]
  · intro f hv hd; simp [Model.getValueOrDefault, hv, hf, hd]

/-- A field whose default is a zero-argument factory. -/
def stampField : OrmField := ⟨none, "text", false, some (PyDefault.factory (fun _ => PyObj.str "now"))⟩

theorem getValueOrDefault_policy_witness :
    Model.getValueOrDefault [] [("stamp", stampField)] "stamp" =
      Except.ok (some (PyObj.str "now"), setAttr [] "stamp" (some (PyObj.str "now"))) :=
  (getValueOrDefault_policy [] [("stamp", stampField)] "stamp" stampField rfl).2.2.2
    (fun _ => PyObj.str "now") rfl rfl

/-- Claim C7: in both modes and on every outcome of the statement and of
the row fetch, the trace of executeSql acquires exactly one pooled
connection and releases exactly one, the release being the last event, so
the connection is never leaked. -/
theorem executeSql_releases_connection (select : Bool) (execFail fetchFail : Option String) :
    (executeSqlEvents select execFail fetchFail).1.count Event.acquire = 1 ∧
    (executeSqlEvents select execFail fetchFail).1.count Event.release = 1 ∧
    (executeSqlEvents select execFail fetchFail).1.getLast? = some Event.release := by
  cases select <;> cases execFail <;> cases fetchFail <;> exact ⟨rfl, rfl, rfl⟩

/-- Claim C1 (amended): find consults the engine exactly at the compiled
SELECT with the where clause on the primary key appended and pk as the
single bound argument; the row limit 1 reduces the result to its head;
zero rows give Python None, and otherwise find returns the one-element
fetched list holding the first row, not the row itself. -/
theorem find_returns_row_list (ts : TableSchema) (engine : SelEngine) (pk : Option PyObj) :
    Model.find ts engine pk =
      match (engine (ts.selectT ++ " where " ++ ts.primaryKey ++ "= ?") [pk]).head? with
      | some r => PyRet.rowList [r]
      | none => PyRet.pynone := by
  unfold Model.find executeSqlSelect
  cases h : engine (ts.selectT ++ " where " ++ ts.primaryKey ++ "= ?") [pk] with
  | nil => simp [h]
  | cons r rs => simp [h]

/-- Claim C1 counterexample: on an engine returning one matching row,
find hands back the one-row list, which differs from the first row itself
that the specification promises. -/
theorem find_returns_row_list_cex :
    Model.find studentSchema engineOneRow (some (PyObj.str "08")) =
      PyRet.rowList [[("SId", some (PyObj.str "08"))]] ∧
    findSpecified studentSchema engineOneRow (some (PyObj.str "08")) =
      PyRet.row [("SId", some (PyObj.str "08"))] ∧
    Model.find studentSchema engineOneRow (some (PyObj.str "08")) ≠
      findSpecified studentSchema engineOneRow (some (PyObj.str "08")) := by
  refine ⟨rfl, rfl, ?_⟩
  decide

/-- Claim C2: at the failing input of a query matching zero rows, findAll
returns Python None, so findCount applies len to None and raises
TypeError instead of returning the integer zero that its own docstring
and the specification promise. -/
theorem findCount_zero_rows_raises :
    Model.findAll studentSchema engineEmpty none none = none ∧
    Model.findCount studentSchema engineEmpty none none =
      Except.error "TypeError: object of type NoneType has no len()" :=
  ⟨rfl, rfl⟩

theorem getValueOrDefault_isOk (r : Record) (m : List (String × OrmField)) (k : String)
    (h : (m.lookup k).isSome = true) :
    ∃ out, Model.getValueOrDefault r m k = Except.ok out := by
  unfold Model.getValueOrDefault
  split
  · exact ⟨_, rfl⟩
  · split
    · next hm => simp [hm] at h
    · split <;> exact ⟨_, rfl⟩

theorem resolveList_isOk (m : List (String × OrmField)) (l : List String) :
    ∀ r : Record, (l.all fun k => (m.lookup k).isSome) = true →
      ∃ out, resolveList r m l = Except.ok out := by
  induction l with
  | nil => intro r _; exact ⟨_, rfl⟩
  | cons k ks ih =>
    intro r h
    rw [List.all_cons, Bool.and_eq_true] at h
    obtain ⟨h1, h2⟩ := h
    obtain ⟨out1, hout1⟩ := getValueOrDefault_isOk r m k h1
    obtain ⟨v, r1⟩ := out1
    obtain ⟨out2, hout2⟩ := ih r1 h2
    obtain ⟨vs, r2⟩ := out2
    exact ⟨(v :: vs, r2), by simp [resolveList, hout1, hout2]⟩

/-- Claim C5: save never raises to its caller; when the argument names
resolve (as they do for every compiled schema, whose fields all appear in
mappings), an engine error during the INSERT is caught and logged and
save still returns normally, and an affected-row count different from
one only produces a logged warning. -/
theorem save_never_raises (ts : TableSchema) (r : Record) (engine : MutEngine)
    (hm : mappingsComplete ts = true) :
    (∃ out, Model.save r ts engine = Except.ok out) ∧
    (∀ args r1 e, resolveList r ts.mappings (ts.fields ++ [ts.primaryKey]) = Except.ok (args, r1) →
      engine ts.insertT args = Except.error e →
      Model.save r ts engine = Except.ok (r1, [LogEntry.error e])) ∧
    (∀ args r1 n, resolveList r ts.mappings (ts.fields ++ [ts.primaryKey]) = Except.ok (args, r1) →
      engine ts.insertT args = Except.ok n → n ≠ 1 →
      Model.save r ts engine =
        Except.ok (r1, [LogEntry.warning ("failed to insert record. affected rows: " ++ toString n)])) := by
  refine ⟨?_, ?_, ?_⟩
  · obtain ⟨⟨args, r1⟩, hres⟩ := resolveList_isOk ts.mappings (ts.fields ++ [ts.primaryKey]) r hm
    cases heng : engine ts.insertT args with
    | ok n =>
      exact ⟨(r1, if n = 1 then []
               else [LogEntry.warning ("failed to insert record. affected rows: " ++ toString n)]),
             by simp [Model.save, hres, heng]⟩
    | error e => exact ⟨(r1, [LogEntry.error e]), by simp [Model.save, hres, heng]⟩
  · intro args r1 e hres heng
    simp [Model.save, hres, heng]
  · intro args r1 n hres heng hn
    have hb : (n != 1) = true := by simpa [bne_iff_ne] using hn
    simp [Model.save, hres, heng, hb]

theorem save_never_raises_witness :
    Model.save rec08 studentSchema engineBoom = Except.ok (rec08, [LogEntry.error "boom"]) :=
  (save_never_raises studentSchema rec08 engineBoom rfl).2.1
    [some (PyObj.str "X"), some (PyObj.str "1990"), some (PyObj.str "F"), some (PyObj.str "08")]
    rec08 "boom" rfl rfl

/-- Claim C9: when the engine reports an affected-row count different
from one, update and remove both complete normally, emitting only the
logged warning. -/
theorem update_remove_warn_only (ts : TableSchema) (r : Record) (eng1 eng2 : MutEngine)
    (pk : Option PyObj) (n : Int) (args : List (Option PyObj)) (r1 : Record)
    (hn : n ≠ 1)
    (hres : resolveList r ts.mappings (ts.fields ++ [ts.primaryKey]) = Except.ok (args, r1))
    (h1 : eng1 ts.updateT args = Except.ok n)
    (h2 : eng2 ts.deleteT [pk] = Except.ok n) :
    Model.update r ts eng1 =
      Except.ok (r1, [LogEntry.warning ("failed to update record. affected rows: " ++ toString n)]) ∧
    Model.remove ts eng2 pk =
      Except.ok [LogEntry.warning ("failed to remove record. affected rows: " ++ toString n)] := by
  have hb : (n != 1) = true := by simpa [bne_iff_ne] using hn
  constructor
  · simp [Model.update, hres, h1, hb]
  · simp [Model.remove, h2, hb]

theorem update_remove_warn_only_witness :
    Model.update rec08 studentSchema engineZero =
      Except.ok (rec08, [LogEntry.warning ("failed to update record. affected rows: " ++ toString (0 : Int))]) ∧
    Model.remove studentSchema engineZero (some (PyObj.str "08")) =
      Except.ok [LogEntry.warning ("failed to remove record. affected rows: " ++ toString (0 : Int))] :=
  update_remove_warn_only studentSchema rec08 engineZero engineZero (some (PyObj.str "08")) 0
    [some (PyObj.str "X"), some (PyObj.str "1990"), some (PyObj.str "F"), some (PyObj.str "08")]
    rec08 (by decide) rfl rfl rfl

theorem countQ_append (a b : String) : countQ (a ++ b) = countQ a + countQ b := by
  simp [countQ, String.data_append, List.count_append]

theorem countQ_str_insert : countQ "insert into " = 0 := rfl

theorem countQ_str_lparen : countQ " (" = 0 := rfl

theorem countQ_str_comma : countQ ", " = 0 := rfl

theorem countQ_str_values : countQ ") values (" = 0 := rfl

theorem countQ_str_rparen : countQ ")" = 0 := rfl

theorem countQ_str_backtick : countQ "`" = 0 := rfl

theorem countQ_str_q : countQ "?" = 1 := rfl

theorem countQ_escapeId (f : String) : countQ (escapeId f) = countQ f := by
  simp [escapeId, countQ_append, countQ_str_backtick]

theorem countQ_commaTail_rep (n : Nat) : countQ (commaTail (List.replicate n "?")) = n := by
  induction n with
  | zero => rfl
  | succ n ih =>
    rw [List.replicate_succ]
    simp only [commaTail]
    rw [countQ_append, countQ_append, countQ_str_comma, countQ_str_q, ih]
    omega

theorem countQ_join_rep (n : Nat) : countQ (joinComma (List.replicate (n + 1) "?")) = n + 1 := by
  rw [List.replicate_succ]
  simp only [joinComma]
  rw [countQ_append, countQ_str_q, countQ_commaTail_rep]
  omega

theorem countQ_commaTail_zero (l : List String) (h : ∀ f ∈ l, countQ f = 0) :
    countQ (commaTail l) = 0 := by
  induction l with
  | nil => rfl
  | cons y ys ih =>
    have hy := h y (by simp)
    have hys := ih (fun f hf => h f (by simp [hf]))
    simp [commaTail, countQ_append, countQ_str_comma, hy, hys]

theorem countQ_join_zero (l : List String) (h : ∀ f ∈ l, countQ f = 0) :
    countQ (joinComma l) = 0 := by
  cases l with
  | nil => rfl
  | cons x xs =>
    have hx := h x (by simp)
    have hxs : ∀ f ∈ xs, countQ f = 0 := fun f hf => h f (by simp [hf])
    simp [joinComma, countQ_append, hx, countQ_commaTail_zero xs hxs]

theorem countQ_join_escaped (l : List String) (h : ∀ f ∈ l, countQ f = 0) :
    countQ (joinComma (l.map escapeId)) = 0 := by
  refine countQ_join_zero (l.map escapeId) ?_
  intro g hg
  obtain ⟨f, hf, rfl⟩ := List.mem_map.mp hg
  rw [countQ_escapeId]
  exact h f hf

theorem pkCount_cons (k : String) (v : OrmField) (tl : List (String × OrmField)) :
    pkCount ((k, v) :: tl) = if v.primary_key = true then pkCount tl + 1 else pkCount tl := by
  by_cases hp : v.primary_key = true <;> simp [pkCount, List.filter_cons, hp]

theorem compileLoop_fields (l : List (String × OrmField)) :
    ∀ acc fs pkOpt fields, compileLoop l acc fs = Except.ok (pkOpt, fields) →
      fields = fs ++ (l.filter fun kv => !kv.2.primary_key).map Prod.fst := by
  induction l with
  | nil =>
    intro acc fs pkOpt fields h
    simp [compileLoop] at h
    simp [h.2]
  | cons hd tl ih =>
    obtain ⟨k, v⟩ := hd
    intro acc fs pkOpt fields h
    by_cases hp : v.primary_key = true
    · by_cases ht : truthyS acc = true
      · simp [compileLoop, hp, ht] at h
      · simp only [compileLoop, if_pos hp, if_neg ht] at h
        rw [ih (some k) fs pkOpt fields h]
        simp [List.filter_cons, hp]
    · simp only [compileLoop, if_neg hp] at h
      rw [ih acc (fs ++ [k]) pkOpt fields h]
      simp [List.filter_cons, hp]

theorem compileLoop_zero (l : List (String × OrmField)) :
    ∀ acc fs, pkCount l = 0 → compileLoop l acc fs = Except.ok (acc, fs ++ l.map Prod.fst) := by
  induction l with
  | nil => intro acc fs _; simp [compileLoop]
  | cons hd tl ih =>
    obtain ⟨k, v⟩ := hd
    intro acc fs h
    by_cases hp : v.primary_key = true
    · rw [pkCount_cons, if_pos hp] at h
      omega
    · rw [pkCount_cons, if_neg hp] at h
      simp only [compileLoop, if_neg hp]
      rw [ih acc (fs ++ [k]) h]
      simp

theorem compileLoop_dup (l : List (String × OrmField)) :
    ∀ acc fs, truthyS acc = true → 1 ≤ pkCount l →
      ∃ k, compileLoop l acc fs = Except.error ("Duplicate primary key for field: " ++ k) := by
  induction l with
  | nil => intro acc fs _ h; simp [pkCount] at h
  | cons hd tl ih =>
    obtain ⟨k, v⟩ := hd
    intro acc fs hacc h
    by_cases hp : v.primary_key = true
    · exact ⟨k, by simp [compileLoop, hp, hacc]⟩
    · rw [pkCount_cons, if_neg hp] at h
      obtain ⟨k1, hk1⟩ := ih acc (fs ++ [k]) hacc h
      exact ⟨k1, by simp only [compileLoop, if_neg hp]; exact hk1⟩

theorem compileLoop_one : ∀ l : List (String × OrmField), (∀ kv ∈ l, kv.1 ≠ "") →
    ∀ fs, pkCount l = 1 →
      ∃ k fields, compileLoop l Option.none fs = Except.ok (some k, fields) ∧ (k == "") = false := by
  intro l
  induction l with
  | nil => intro _ fs h; simp [pkCount] at h
  | cons hd tl ih =>
    obtain ⟨k, v⟩ := hd
    intro hk fs h
    by_cases hp : v.primary_key = true
    · have h0 : pkCount tl = 0 := by rw [pkCount_cons, if_pos hp] at h; omega
      have hkne : k ≠ "" := hk (k, v) (by simp)
      refine ⟨k, fs ++ tl.map Prod.fst, ?_, beq_eq_false_iff_ne.mpr hkne⟩
      simp only [compileLoop, if_pos hp, truthyS]
      exact compileLoop_zero tl (some k) fs h0
    · have h1 : pkCount tl = 1 := by rw [pkCount_cons, if_neg hp] at h; exact h
      obtain ⟨k1, fields, hks, hkne⟩ := ih (fun kv hkv => hk kv (by simp [hkv])) (fs ++ [k]) h1
      exact ⟨k1, fields, by simp only [compileLoop, if_neg hp]; exact hks, hkne⟩

theorem compileLoop_two : ∀ l : List (String × OrmField), (∀ kv ∈ l, kv.1 ≠ "") →
    ∀ fs, 2 ≤ pkCount l →
      ∃ k, compileLoop l Option.none fs = Except.error ("Duplicate primary key for field: " ++ k) := by
  intro l
  induction l with
  | nil => intro _ fs h; simp [pkCount] at h
  | cons hd tl ih =>
    obtain ⟨k, v⟩ := hd
    intro hk fs h
    by_cases hp : v.primary_key = true
    · have h1 : 1 ≤ pkCount tl := by rw [pkCount_cons, if_pos hp] at h; omega
      have hkne : k ≠ "" := hk (k, v) (by simp)
      have ht : truthyS (some k) = true := by simp [truthyS, hkne]
      obtain ⟨k1, hk1⟩ := compileLoop_dup tl (some k) fs ht h1
      refine ⟨k1, ?_⟩
      simp only [compileLoop, if_pos hp, truthyS]
      exact hk1
    · have h2 : 2 ≤ pkCount tl := by rw [pkCount_cons, if_neg hp] at h; exact h
      obtain ⟨k1, hk1⟩ := ih (fun kv hkv => hk kv (by simp [hkv])) (fs ++ [k]) h2
      exact ⟨k1, by simp only [compileLoop, if_neg hp]; exact hk1⟩

theorem compileModel_ok (decl : ModelDecl) (ts : TableSchema)
    (hok : compileModel decl = Except.ok ts) :
    ∃ pk fields, compileLoop decl.fieldAttrs Option.none [] = Except.ok (some pk, fields) ∧
      (pk == "") = false ∧ ts = mkSchema (tableNameOf decl) pk fields decl.fieldAttrs := by
  unfold compileModel at hok
  cases hl : compileLoop decl.fieldAttrs Option.none [] with
  | error e => rw [hl] at hok; simp at hok
  | ok pr =>
    obtain ⟨pkOpt, fields⟩ := pr
    rw [hl] at hok
    cases pkOpt with
    | none => simp at hok
    | some pk =>
      by_cases hpk : (pk == "") = true
      · simp [hpk] at hok
      · refine ⟨pk, fields, rfl, by simpa using hpk, ?_⟩
        simp only [if_neg hpk] at hok
        simp at hok
        exact hok.symm

/-- Claim C3: for a declaration compiling successfully (so with exactly
one primary key) whose identifiers hold no question mark, the INSERT
template holds exactly N plus one positional placeholders where N is the
number of non-key fields of the declaration, and its column list is the
non-key columns in order followed by the primary key last, before the
placeholder list. -/
theorem insert_template_shape (decl : ModelDecl) (ts : TableSchema)
    (hok : compileModel decl = Except.ok ts)
    (hqt : countQ ts.tableName = 0) (hqp : countQ ts.primaryKey = 0)
    (hqf : ∀ f ∈ ts.fields, countQ f = 0) :
    countQ ts.insertT = ts.fields.length + 1 ∧
    ts.fields.length = (decl.fieldAttrs.filter fun kv => !kv.2.primary_key).length ∧
    ts.insertT = "insert into " ++ escapeId ts.tableName ++ " (" ++ joinComma (ts.fields.map escapeId)
      ++ ", " ++ escapeId ts.primaryKey ++ ") values ("
      ++ joinComma (List.replicate (ts.fields.length + 1) "?") ++ ")" := by
  obtain ⟨pk, fields, hl, hpk, hts⟩ := compileModel_ok decl ts hok
  subst hts
  simp only [mkSchema] at hqt hqp hqf ⊢
  have e1 : countQ (joinComma (fields.map escapeId)) = 0 := countQ_join_escaped fields hqf
  have e2 : countQ (joinComma (List.replicate ((fields.map escapeId).length + 1) "?"))
      = (fields.map escapeId).length + 1 := countQ_join_rep _
  rw [List.length_map] at e2
  refine ⟨?_, ?_, ?_⟩
  · simp [countQ_append, countQ_escapeId, hqt, hqp, e1, e2, countQ_str_insert,
      countQ_str_lparen, countQ_str_comma, countQ_str_values, countQ_str_rparen]
  · rw [compileLoop_fields decl.fieldAttrs Option.none [] (some pk) fields hl]
    simp
  · simp [List.length_map]

theorem insert_template_shape_witness :
    countQ studentSchema.insertT = studentSchema.fields.length + 1 ∧
    studentSchema.fields.length = (studentDecl.fieldAttrs.filter fun kv => !kv.2.primary_key).length ∧
    studentSchema.insertT = "insert into " ++ escapeId studentSchema.tableName ++ " ("
      ++ joinComma (studentSchema.fields.map escapeId) ++ ", " ++ escapeId studentSchema.primaryKey
      ++ ") values (" ++ joinComma (List.replicate (studentSchema.fields.length + 1) "?") ++ ")" :=
  insert_template_shape studentDecl studentSchema rfl (by decide) (by decide) (by decide)

/-- A declaration with no primary-key field. -/
def declNoPk : ModelDecl := ⟨"NoPk", Option.none, [("a", TextField none none)]⟩

/-- A declaration with two primary-key fields. -/
def declTwoPk : ModelDecl :=
  ⟨"TwoPk", Option.none,
   [("a", IntegerField none true (some (PyDefault.lit (PyObj.int 0)))),
    ("b", IntegerField none true (some (PyDefault.lit (PyObj.int 0))))]⟩

/-- Claim C4: for every declaration whose attribute names are nonempty
identifiers, compilation fails with the missing-primary-key RuntimeError
when no field is marked primary key, fails with the duplicate-primary-key
RuntimeError when two or more are, and succeeds when exactly one is, so
it never silently picks one. -/
theorem primary_key_validation (decl : ModelDecl) (hk : ∀ kv ∈ decl.fieldAttrs, kv.1 ≠ "") :
    (pkCount decl.fieldAttrs = 0 → compileModel decl = Except.error "Primary key not found.") ∧
    (2 ≤ pkCount decl.fieldAttrs →
      ∃ k, compileModel decl = Except.error ("Duplicate primary key for field: " ++ k)) ∧
    (pkCount decl.fieldAttrs = 1 → ∃ ts, compileModel decl = Except.ok ts) := by
  refine ⟨?_, ?_, ?_⟩
  · intro h0
    have hz := compileLoop_zero decl.fieldAttrs Option.none [] h0
    simp [compileModel, hz]
  · intro h2
    obtain ⟨k, hks⟩ := compileLoop_two decl.fieldAttrs hk [] h2
    exact ⟨k, by simp [compileModel, hks]⟩
  · intro h1
    obtain ⟨k, fields, hks, hkne⟩ := compileLoop_one decl.fieldAttrs hk [] h1
    exact ⟨mkSchema (tableNameOf decl) k fields decl.fieldAttrs,
      by simp [compileModel, hks, hkne]⟩

theorem primary_key_validation_witness :
    compileModel declNoPk = Except.error "Primary key not found." ∧
    (∃ k, compileModel declTwoPk = Except.error ("Duplicate primary key for field: " ++ k)) ∧
    (∃ ts, compileModel studentDecl = Except.ok ts) :=
  ⟨(primary_key_validation declNoPk (by decide)).1 (by decide),
   (primary_key_validation declTwoPk (by decide)).2.1 (by decide),
   (primary_key_validation studentDecl (by decide)).2.2 (by decide)⟩

/-- Claim C8 (amended): the compiled UPDATE template is update table set
f1=?, ..., fn=? where pk=? with every identifier backtick-escaped, and
the SET-clause column name of each field is its name attribute when that
attribute is present and nonempty (truthy), else the declaration key: a
present but empty name attribute falls back to the declaration key. -/
theorem update_template_alias (decl : ModelDecl) (ts : TableSchema)
    (hok : compileModel decl = Except.ok ts) :
    ts.updateT = "update " ++ escapeId ts.tableName ++ " set "
      ++ joinComma (ts.fields.map (fun f => escapeId (aliasOf ts.mappings f) ++ "=?"))
      ++ " where " ++ escapeId ts.primaryKey ++ "=?" ∧
    (∀ f fld s, ts.mappings.lookup f = some fld → fld.name = some s → s ≠ "" →
      aliasOf ts.mappings f = s) ∧
    (∀ f fld, ts.mappings.lookup f = some fld → fld.name = some "" →
      aliasOf ts.mappings f = f) ∧
    (∀ f fld, ts.mappings.lookup f = some fld → fld.name = none →
      aliasOf ts.mappings f = f) := by
  obtain ⟨pk, fields, hl, hpk, hts⟩ := compileModel_ok decl ts hok
  subst hts
  refine ⟨by simp [mkSchema], ?_, ?_, ?_⟩
  · intro f fld s hf hn hs
    have hsb : (s == "") = false := beq_eq_false_iff_ne.mpr hs
    simp only [mkSchema] at hf ⊢
    simp [aliasOf, hf, hn, hsb]
  · intro f fld hf hn
    simp only [mkSchema] at hf ⊢
    simp [aliasOf, hf, hn]
  · intro f fld hf hn
    simp only [mkSchema] at hf ⊢
    simp [aliasOf, hf, hn]

theorem update_template_alias_witness :
    studentSchema.updateT = "update " ++ escapeId studentSchema.tableName ++ " set "
      ++ joinComma (studentSchema.fields.map (fun f => escapeId (aliasOf studentSchema.mappings f) ++ "=?"))
      ++ " where " ++ escapeId studentSchema.primaryKey ++ "=?" :=
  (update_template_alias studentDecl studentSchema rfl).1

/-- A declaration holding a field whose name attribute is present but
empty. -/
def aliasDecl : ModelDecl :=
  ⟨"AliasTable", Option.none,
   [("id", IntegerField none true (some (PyDefault.lit (PyObj.int 0)))),
    ("nick", StringField (some "") false none)]⟩

/-- The compiled schema of the alias declaration. -/
def aliasSchema : TableSchema :=
  match compileModel aliasDecl with
  | Except.ok ts => ts
  | Except.error _ => ⟨"", "", [], [], "", "", "", ""⟩

/-- Claim C8 counterexample: the nick field carries the present but empty
name attribute; the compiled SET clause uses the declaration key nick,
while the rule of the claim (name attribute whenever present) would
produce an empty column name instead. -/
theorem update_template_alias_cex :
    compileModel aliasDecl = Except.ok aliasSchema ∧
    aliasSchema.updateT = "update `AliasTable` set `nick`=? where `id`=?" ∧
    updateTemplateSpecified aliasSchema = "update `AliasTable` set ``=? where `id`=?" ∧
    aliasSchema.updateT ≠ updateTemplateSpecified aliasSchema := by
  refine ⟨rfl, ?_, ?_, ?_⟩ <;> decide
